import Mathlib

/-!
Verification of the geoipupdate program (geoipupdate.go).

The Go source is shallowly embedded below.  Pure helpers of the program
(isSuccess, md5File's structure, the polling loop of getProduct, the
tmp-write-then-rename publish, randInt64, the per-product loop of main)
become Lean functions.  Standard-library primitives that the program
calls but does not define (crypto/md5 hashing, gzip decompression,
path.Base, path.Join, time.ParseDuration) are abstracted as parameters,
bundled in the `Libs` structure or passed explicitly; the theorems never
rely on any property of these parameters beyond how the program uses
their results.  Network traffic is modelled as a trace of transport
events: each event is the outcome of one HTTP GET issued by the program
(the request could not be sent, the body read failed, or a status code
plus body arrived), consumed in program order.  The filesystem is a
partial map from paths to byte contents.
-/

/-- Byte strings, as lists of byte values. -/
abbrev Bytes := List Nat

/-- A filesystem: paths to file contents, none meaning missing/unreadable. -/
abbrev FS := String → Option Bytes

/-- The library primitives used by the program but defined outside it:
crypto/md5 (already hex-encoded, as the program always hex-encodes the sum),
gzip decompression (gzip.NewReader + ReadAll, which can fail), and the
path helpers path.Base and path.Join. -/
structure Libs where
  md5Hex : Bytes → String
  gunzip : Bytes → Except String Bytes
  pathBase : String → String
  pathJoin : String → String → String

/-- Bytes of a string, as Go's []byte(s) (byte values of the characters). -/
def strBytes (s : String) : Bytes := s.toList.map Char.toNat

/-- String of a body, as Go's string(data). -/
def bytesStr (b : Bytes) : String := String.mk (b.map Char.ofNat)

/-- The sentinel digest md5File returns for a missing or unreadable file. -/
def sentinelDigest : String := "00000000000000000000000000000000"

/-- Embedding of md5File (geoipupdate.go lines 63-71): if reading the file
fails, return the all-zero sentinel; otherwise hex-encode the md5 of the
file's bytes. -/
def md5File (L : Libs) (fs : FS) (fn : String) : String :=
  match fs fn with
  | none => sentinelDigest
  | some data => L.md5Hex data

/-- Embedding of isSuccess (lines 35-37). -/
def isSuccess (statusCode : Int) : Bool :=
  statusCode ≥ 200 && statusCode ≤ 209

/-- Embedding of the challenge computation (lines 98-101): md5 over the
license key bytes followed by the client address bytes. -/
def computeChallenge (L : Libs) (licenseKey clientIp : String) : String :=
  L.md5Hex (strBytes licenseKey ++ strBytes clientIp)

/-- An HTTP response header as the program sees it: the numeric status
code and the status text (Go's http.Response.Status, e.g. "404 Not Found"). -/
structure Response where
  statusCode : Int
  statusText : String
deriving DecidableEq

/-- The outcome of one HTTP GET, as decided by the environment:
the request could not be sent (http.Get returned an error), the response
arrived but reading the body failed partway (ReadAll error), or the
response arrived with its full body. -/
inductive TransportEvent where
  | sendFailure (msg : String)
  | readFailure (resp : Response) (msg : String)
  | success (resp : Response) (body : Bytes)
deriving DecidableEq

/-- Result of download (lines 39-61).  On a send failure the program calls
log.Fatal, which terminates the whole process: modelled as `fatal`.
Otherwise download returns the response together with the body and the
read error, exactly as the Go function returns (res, data, err). -/
inductive DlResult where
  | fatal (msg : String)
  | result (resp : Response) (data : Bytes) (err : Option String)
deriving DecidableEq

/-- Embedding of download (lines 39-61). -/
def download : TransportEvent → DlResult
  | .sendFailure m => .fatal m
  | .readFailure r m => .result r [] (some m)
  | .success r b => .result r b none

/-- Result of updateSecure as its caller observes it: process terminated
(fatal), an error returned, or the body bytes. -/
inductive SecResult where
  | fatal (msg : String)
  | err (msg : String)
  | ok (data : Bytes)
deriving DecidableEq

/-- Embedding of updateSecure (lines 73-84): it checks the status code
first (returning "Status ... received" on a non-success code) and then
returns (data, err) from download, so a body-read error surfaces to the
caller as that error. -/
def updateSecure (ev : TransportEvent) : SecResult :=
  match download ev with
  | .fatal m => .fatal m
  | .result r data e =>
    if !(isSuccess r.statusCode) then .err ("Status " ++ r.statusText ++ " received")
    else
      match e with
      | some m => .err m
      | none => .ok data

/-- The literal NoUpdate marker text (line 109). -/
def noUpdateMarker : Bytes := strBytes "No new updates available"

/-- The two-byte gzip magic (line 118). -/
def gzipMagic : Bytes := [0x1f, 0x8b]

/-- The mutable state of getProduct's polling loop (lines 103-104, 137):
the round counter `attempts`, the most recent decompressed payload
`uncompressed`, and the digest `oldDigest` sent with the next poll. -/
structure LoopState where
  attempts : Nat
  uncompressed : Bytes
  oldDigest : String
deriving DecidableEq

/-- How the polling loop ends.  `noop` is the "No new updates available"
return with an empty payload (line 115, returns nil without publishing);
`publish` is the break out of the loop with the payload to publish and
the number of rounds consumed; `noEvent` marks exhaustion of the supplied
event trace (the real loop would issue a further request). -/
inductive LoopResult where
  | fatal (msg : String)
  | err (msg : String)
  | noop (rounds : Nat)
  | publish (data : Bytes) (rounds : Nat)
  | noEvent
deriving DecidableEq

/-- One iteration either halts the loop with a result or continues with a
new state. -/
inductive StepOut where
  | halt (r : LoopResult)
  | next (s : LoopState)
deriving DecidableEq

/-- Embedding of one iteration of getProduct's loop body (lines 105-138):
poll, then classify the body: NoUpdate marker (break or return nil by
whether a payload was already retrieved), not gzip-prefixed (error),
round counter bound (increment, error when above 5), otherwise decompress,
replace the payload and recompute the digest. -/
def loopStep (L : Libs) (s : LoopState) (ev : TransportEvent) : StepOut :=
  match updateSecure ev with
  | .fatal m => .halt (.fatal m)
  | .err m => .halt (.err m)
  | .ok data =>
    if noUpdateMarker.isPrefixOf data then
      if s.uncompressed.length > 0 then .halt (.publish s.uncompressed s.attempts)
      else .halt (.noop s.attempts)
    else if !(gzipMagic.isPrefixOf data) then .halt (.err "Not a gzip file")
    else if s.attempts + 1 > 5 then .halt (.err "Too many attempts at downloading file")
    else
      match L.gunzip data with
      | .error m => .halt (.err m)
      | .ok unc => .next ⟨s.attempts + 1, unc, L.md5Hex unc⟩

/-- The polling loop run against a trace of poll outcomes.  Returns the
loop's result together with the list of loop states reached, i.e. the
state at the head of each iteration. -/
def loopRun (L : Libs) : LoopState → List TransportEvent → LoopResult × List LoopState
  | s, [] => (.noEvent, [s])
  | s, ev :: rest =>
    match loopStep L s ev with
    | .halt r => (r, [s])
    | .next s2 =>
      let p := loopRun L s2 rest
      (p.1, s :: p.2)

/-- Writing a file (ioutil.WriteFile): the path gets the given content,
other paths are untouched. -/
def writeFileFS (fs : FS) (p : String) (data : Bytes) : FS :=
  fun q => if q = p then some data else fs q

/-- Renaming a file (os.Rename): the destination gets the source's
content, the source disappears, other paths are untouched. -/
def renameFS (fs : FS) (src dst : String) : FS :=
  fun q => if q = dst then fs src else if q = src then none else fs q

/-- Embedding of the publish step of getProduct (lines 141-147): write the
payload to target + ".tmp", then rename the tmp file over the target.
`writeOk`/`renameOk` are the environment's verdict on each operation;
a failed write leaves `truncData` (whatever partial content the failed
write produced) at the tmp path and nothing else changed.  Returns the
list of filesystem states that existed during the operation, the final
state, and the outcome. -/
def publishFS (fs : FS) (target : String) (data truncData : Bytes)
    (writeOk renameOk : Bool) : List FS × FS × Except String Unit :=
  if writeOk then
    let fs1 := writeFileFS fs (target ++ ".tmp") data
    if renameOk then
      let fs2 := renameFS fs1 (target ++ ".tmp") target
      ([fs, fs1, fs2], fs2, Except.ok ())
    else ([fs, fs1], fs1, Except.error "rename failed")
  else
    let fs1 := writeFileFS fs (target ++ ".tmp") truncData
    ([fs, fs1], fs1, Except.error "tmp write failed")

/-- The target path of a product (lines 93-95): join the directory with
the base name of the filename body returned by update_getfilename. -/
def filePathOf (L : Libs) (directory : String) (fnameBody : Bytes) : String :=
  L.pathJoin directory (L.pathBase (bytesStr fnameBody))

/-- The outcome of getProduct for one product: process terminated inside
download (fatal), an error return, the nil return of the no-update path,
a successful publish, or exhaustion of the event trace. -/
inductive SessionResult where
  | fatal (msg : String)
  | err (msg : String)
  | noopOk
  | published (target : String) (data : Bytes)
  | noEvent
deriving DecidableEq

/-- Embedding of getProduct (lines 86-151): fetch the filename (error
check first, then status check), compute the target path, the local
digest and the challenge, run the polling loop, and on a publish result
write the tmp file and rename it over the target. -/
def getProduct (L : Libs) (directory licenseKey clientIp : String)
    (fnameEv : TransportEvent) (pollEvs : List TransportEvent)
    (fs : FS) (writeOk renameOk : Bool) (truncData : Bytes) :
    SessionResult × FS :=
  match download fnameEv with
  | .fatal m => (.fatal m, fs)
  | .result r data e =>
    match e with
    | some m => (.err m, fs)
    | none =>
      if !(isSuccess r.statusCode) then
        (.err ("Status " ++ r.statusText ++ " received"), fs)
      else
        let filePath := filePathOf L directory data
        let oldDigest := md5File L fs filePath
        let _challenge := computeChallenge L licenseKey clientIp
        match (loopRun L ⟨0, [], oldDigest⟩ pollEvs).1 with
        | .fatal m => (.fatal m, fs)
        | .err m => (.err m, fs)
        | .noop _ => (.noopOk, fs)
        | .noEvent => (.noEvent, fs)
        | .publish unc _ =>
          let pr := publishFS fs filePath unc truncData writeOk renameOk
          match pr.2.2 with
          | .error m => (.err m, pr.2.1)
          | .ok _ => (.published filePath unc, pr.2.1)

/-- Embedding of randInt64 (lines 165-173): interpret 8 random bytes as a
big-endian unsigned 64-bit number, clear the sign bit, and reduce modulo
max with Go's truncated %.  Go's % panics on a zero divisor, modelled as
none. -/
def randInt64 (randBytes : Nat) (max : Int) : Option Int :=
  let data : Int := ((randBytes % 2 ^ 64) &&& 0x7fffffffffffffff : Nat)
  if max = 0 then none else some (data.tmod max)

/-- How the pre-run jitter of main ends. -/
inductive JitterOutcome where
  | noDelay
  | fatalParse (msg : String)
  | panicked
  | sleep (d : Int)
deriving DecidableEq

/-- Embedding of the jitter step of main (lines 178-186).  `parsed` is
the result of time.ParseDuration on the randomdelay flag (a library call,
abstracted; the value is the duration in nanoseconds).  An empty flag
skips the delay; a parse error is log.Fatalf; otherwise main calls
randInt64 with the duration's nanoseconds, whose zero-divisor case is a
runtime panic. -/
def mainJitter (randomDelay : String) (parsed : Except String Int)
    (randBytes : Nat) : JitterOutcome :=
  if randomDelay = "" then .noDelay
  else
    match parsed with
    | .error m => .fatalParse m
    | .ok dur =>
      match randInt64 randBytes dur with
      | none => .panicked
      | some v => .sleep v

/-- Embedding of main's per-product loop (lines 192-194): getProduct is
called for each product in order and its error result is ignored, so the
loop goes on after an error return; but a fatal (log.Fatal inside
download) terminates the process, so no later product is reached. -/
def runProducts (run : String → SessionResult) : List String → List (String × SessionResult)
  | [] => []
  | p :: ps =>
    match run p with
    | .fatal m => [(p, .fatal m)]
    | r => (p, r) :: runProducts run ps

/-- The digest invariant of the polling loop: the digest carried by the
state is the local file digest while no payload round has been accepted,
and otherwise the digest of the most recently decompressed payload. -/
def digestInv (L : Libs) (init : String) (s : LoopState) : Prop :=
  (s.attempts = 0 ∧ s.uncompressed = [] ∧ s.oldDigest = init) ∨
  (0 < s.attempts ∧ s.oldDigest = L.md5Hex s.uncompressed)

/-- A concrete instantiation of the library primitives, used to evaluate
the theorems on concrete inputs: the hash is a constant, decompression
drops the two magic bytes, the path helpers are plain. -/
def wLibs : Libs where
  md5Hex := fun _ => "d"
  gunzip := fun b => Except.ok (b.drop 2)
  pathBase := fun s => s
  pathJoin := fun a b => a ++ "/" ++ b

/-- The empty filesystem. -/
def fsEmpty : FS := fun _ => none

/-- A filesystem holding one file. -/
def fsOne : FS := fun p => if p = "/d/a.dat" then some [1, 2] else none

/-- A concrete successful response header. -/
def okResp : Response := ⟨200, "200 OK"⟩

/-- A concrete per-product session in which the first product's filename
request cannot be sent (http.Get fails, so download calls log.Fatal). -/
def c4run (p : String) : SessionResult :=
  (getProduct wLibs "/d" "k" "1.2.3.4"
    (if p = "506" then TransportEvent.sendFailure "connection refused"
     else TransportEvent.success okResp (strBytes "a"))
    [] fsEmpty true true []).1

/-- A concrete per-product session that never terminates the process. -/
def c4okRun (_p : String) : SessionResult :=
  (getProduct wLibs "/d" "k" "1.2.3.4"
    (TransportEvent.success okResp (strBytes "a"))
    [] fsEmpty true true []).1

/-- The NoUpdate marker starts with byte 78, the character N. -/
theorem marker_head : ∃ rest, noUpdateMarker = 78 :: rest :=
  ⟨(strBytes "o new updates available"), by decide⟩

/-- A body with the gzip magic prefix cannot carry the NoUpdate marker. -/
theorem magic_not_marker {b : Bytes} (h : gzipMagic.isPrefixOf b = true) :
    noUpdateMarker.isPrefixOf b = false := by
  obtain ⟨rest, hm⟩ := marker_head
  match b with
  | [] => simp [gzipMagic, List.isPrefixOf] at h
  | x :: t =>
    have hx : x = 31 := by
      simp [gzipMagic, List.isPrefixOf] at h
      omega
    rw [hm]
    simp [List.isPrefixOf, hx]

/-- A reply read in full with a success status and the gzip magic, while
fewer than 5 rounds have run, advances the loop: the round counter goes
up, the decompressed bytes replace the payload, the digest is recomputed. -/
theorem loopStep_gzip (L : Libs) (s : LoopState) (r : Response) (body u : Bytes)
    (hs : isSuccess r.statusCode = true)
    (hm : gzipMagic.isPrefixOf body = true)
    (hg : L.gunzip body = Except.ok u)
    (ha : s.attempts < 5) :
    loopStep L s (.success r body) = .next ⟨s.attempts + 1, u, L.md5Hex u⟩ := by
  have h1 := magic_not_marker hm
  have h2 : ¬ (s.attempts + 1 > 5) := by omega
  simp [loopStep, updateSecure, download, hs, h1, hm, h2, hg]

/-- A sixth gzip reply (5 rounds already run) fails the loop with the
too-many-attempts error, before any decompression. -/
theorem loopStep_gzip_bound (L : Libs) (s : LoopState) (r : Response) (body : Bytes)
    (hs : isSuccess r.statusCode = true)
    (hm : gzipMagic.isPrefixOf body = true)
    (ha : 5 ≤ s.attempts) :
    loopStep L s (.success r body) = .halt (.err "Too many attempts at downloading file") := by
  have h1 := magic_not_marker hm
  have h2 : s.attempts + 1 > 5 := by omega
  simp [loopStep, updateSecure, download, hs, h1, hm, h2]

/-- A NoUpdate reply ends the loop: publish when a payload was already
retrieved, the nil return otherwise. -/
theorem loopStep_noupdate (L : Libs) (s : LoopState) (r : Response) (body : Bytes)
    (hs : isSuccess r.statusCode = true)
    (hn : noUpdateMarker.isPrefixOf body = true) :
    loopStep L s (.success r body) =
      (if s.uncompressed.length > 0 then .halt (.publish s.uncompressed s.attempts)
       else .halt (.noop s.attempts)) := by
  simp [loopStep, updateSecure, download, hs, hn]

/-- A reply that is neither NoUpdate nor gzip-prefixed fails the loop. -/
theorem loopStep_malformed (L : Libs) (s : LoopState) (r : Response) (body : Bytes)
    (hs : isSuccess r.statusCode = true)
    (hn : noUpdateMarker.isPrefixOf body = false)
    (hm : gzipMagic.isPrefixOf body = false) :
    loopStep L s (.success r body) = .halt (.err "Not a gzip file") := by
  simp [loopStep, updateSecure, download, hs, hn, hm]

/-- A body-read failure on a success status surfaces as an error return. -/
theorem loopStep_readfail (L : Libs) (s : LoopState) (r : Response) (m : String)
    (hs : isSuccess r.statusCode = true) :
    loopStep L s (.readFailure r m) = .halt (.err m) := by
  simp [loopStep, updateSecure, download, hs]

/-- Unfolding the loop on a halting step. -/
theorem loopRun_halt (L : Libs) (s : LoopState) (ev : TransportEvent)
    (rest : List TransportEvent) (r : LoopResult)
    (h : loopStep L s ev = .halt r) :
    loopRun L s (ev :: rest) = (r, [s]) := by
  simp [loopRun, h]

/-- Unfolding the loop on a continuing step. -/
theorem loopRun_next (L : Libs) (s s2 : LoopState) (ev : TransportEvent)
    (rest : List TransportEvent)
    (h : loopStep L s ev = .next s2) :
    loopRun L s (ev :: rest) = ((loopRun L s2 rest).1, s :: (loopRun L s2 rest).2) := by
  simp [loopRun, h]

/-- Whenever one iteration continues, the round counter was below the
bound and the new state carries the digest of its own payload. -/
theorem loopStep_next_shape {L : Libs} {s s2 : LoopState} {ev : TransportEvent}
    (h : loopStep L s ev = .next s2) :
    s2.attempts = s.attempts + 1 ∧ s.attempts + 1 ≤ 5 ∧
    s2.oldDigest = L.md5Hex s2.uncompressed := by
  unfold loopStep at h
  cases hu : updateSecure ev with
  | fatal m => rw [hu] at h; simp at h
  | err m => rw [hu] at h; simp at h
  | ok data =>
    rw [hu] at h
    by_cases h1 : noUpdateMarker.isPrefixOf data
    · simp only [h1, if_true] at h
      by_cases h2 : s.uncompressed.length > 0 <;> simp [h2] at h
    · simp only [h1, if_false, Bool.not_eq_true] at h
      rw [if_neg (by simp [h1])] at h
      by_cases h2 : gzipMagic.isPrefixOf data
      · rw [if_neg (by simp [h2])] at h
        by_cases h3 : s.attempts + 1 > 5
        · rw [if_pos h3] at h; simp at h
        · rw [if_neg h3] at h
          cases hg : L.gunzip data with
          | error m => rw [hg] at h; simp at h
          | ok unc =>
            rw [hg] at h
            have h4 : LoopState.mk (s.attempts + 1) unc (L.md5Hex unc) = s2 := by
              cases h; rfl
            cases h4
            exact ⟨rfl, by omega, rfl⟩
      · rw [if_pos (by simp [h2])] at h; simp at h

/-- Every loop state reached from a state within the round bound stays
within the round bound: at most 5 decompression rounds ever run. -/
theorem loopRun_trace_bound (L : Libs) :
    ∀ (evs : List TransportEvent) (s : LoopState), s.attempts ≤ 5 →
      ∀ t ∈ (loopRun L s evs).2, t.attempts ≤ 5
  | [], s, hs, t, ht => by
    simp [loopRun] at ht
    exact ht ▸ hs
  | ev :: rest, s, hs, t, ht => by
    cases hstep : loopStep L s ev with
    | halt r =>
      rw [loopRun_halt L s ev rest r hstep] at ht
      simp at ht
      exact ht ▸ hs
    | next s2 =>
      rw [loopRun_next L s s2 ev rest hstep] at ht
      simp only [List.mem_cons] at ht
      rcases ht with h | h
      · exact h ▸ hs
      · have hsh := loopStep_next_shape hstep
        exact loopRun_trace_bound L rest s2 (by omega) t h

/-- Every loop state reached from a state satisfying the digest invariant
satisfies the digest invariant. -/
theorem loopRun_trace_inv (L : Libs) (init : String) :
    ∀ (evs : List TransportEvent) (s : LoopState), digestInv L init s →
      ∀ t ∈ (loopRun L s evs).2, digestInv L init t
  | [], s, hs, t, ht => by
    simp [loopRun] at ht
    exact ht ▸ hs
  | ev :: rest, s, hs, t, ht => by
    cases hstep : loopStep L s ev with
    | halt r =>
      rw [loopRun_halt L s ev rest r hstep] at ht
      simp at ht
      exact ht ▸ hs
    | next s2 =>
      rw [loopRun_next L s s2 ev rest hstep] at ht
      simp only [List.mem_cons] at ht
      rcases ht with h | h
      · exact h ▸ hs
      · have hsh := loopStep_next_shape hstep
        exact loopRun_trace_inv L init rest s2 (Or.inr ⟨by omega, hsh.2.2⟩) t h

/-- getProduct, once the filename request succeeded, is decided by the
result of the polling loop started at the local file's digest, followed
by the publish step on a publish result. -/
theorem getProduct_of_loop (L : Libs) (dir lk ip : String) (rf : Response)
    (fname : Bytes) (evs : List TransportEvent) (fs : FS) (w rn : Bool)
    (td : Bytes) (hs : isSuccess rf.statusCode = true) :
    getProduct L dir lk ip (.success rf fname) evs fs w rn td =
      (match (loopRun L ⟨0, [], md5File L fs (filePathOf L dir fname)⟩ evs).1 with
       | .fatal m => (.fatal m, fs)
       | .err m => (.err m, fs)
       | .noop _ => (.noopOk, fs)
       | .noEvent => (.noEvent, fs)
       | .publish unc _ =>
         match (publishFS fs (filePathOf L dir fname) unc td w rn).2.2 with
         | .error m => (.err m, (publishFS fs (filePathOf L dir fname) unc td w rn).2.1)
         | .ok _ => (.published (filePathOf L dir fname) unc,
                     (publishFS fs (filePathOf L dir fname) unc td w rn).2.1)) := by
  simp [getProduct, download, hs]

/-- A loop that ends in an error makes getProduct return that error with
the filesystem untouched: no temporary or target file is written. -/
theorem getProduct_err_of_loop (L : Libs) (dir lk ip : String) (rf : Response)
    (fname : Bytes) (evs : List TransportEvent) (fs : FS) (w rn : Bool)
    (td : Bytes) (m : String)
    (hs : isSuccess rf.statusCode = true)
    (hl : (loopRun L ⟨0, [], md5File L fs (filePathOf L dir fname)⟩ evs).1
      = .err m) :
    getProduct L dir lk ip (.success rf fname) evs fs w rn td = (.err m, fs) := by
  rw [getProduct_of_loop L dir lk ip rf fname evs fs w rn td hs, hl]

/-- A loop that ends on the empty-payload NoUpdate path makes getProduct
return nil with the filesystem untouched. -/
theorem getProduct_noop_of_loop (L : Libs) (dir lk ip : String) (rf : Response)
    (fname : Bytes) (evs : List TransportEvent) (fs : FS) (w rn : Bool)
    (td : Bytes) (n : Nat)
    (hs : isSuccess rf.statusCode = true)
    (hl : (loopRun L ⟨0, [], md5File L fs (filePathOf L dir fname)⟩ evs).1
      = .noop n) :
    getProduct L dir lk ip (.success rf fname) evs fs w rn td = (.noopOk, fs) := by
  rw [getProduct_of_loop L dir lk ip rf fname evs fs w rn td hs, hl]

/-- The staging path differs from the target path. -/
theorem target_ne_tmp (t : String) : t ≠ t ++ ".tmp" := by
  intro h
  have h2 := congrArg String.length h
  rw [String.length_append] at h2
  have h3 : (".tmp" : String).length = 4 := rfl
  rw [h3] at h2
  omega

/-- C6: a fetch is successful exactly when the status code is in the
inclusive band 200..209, and any other code makes updateSecure return
the protocol error carrying the status text, whether or not the body was
read in full. -/
theorem c6_success_band :
    (∀ c : Int, isSuccess c = true ↔ (200 ≤ c ∧ c ≤ 209)) ∧
    (∀ (r : Response) (body : Bytes), isSuccess r.statusCode = false →
      updateSecure (.success r body) = .err ("Status " ++ r.statusText ++ " received")) ∧
    (∀ (r : Response) (m : String), isSuccess r.statusCode = false →
      updateSecure (.readFailure r m) = .err ("Status " ++ r.statusText ++ " received")) := by
  refine ⟨?_, ?_, ?_⟩
  · intro c
    simp [isSuccess, ge_iff_le]
  · intro r body h
    simp [updateSecure, download, h]
  · intro r m h
    simp [updateSecure, download, h]

/-- Witness for C6 at concrete inputs. -/
theorem c6_witness :
    (isSuccess 200 = true ∧ isSuccess 209 = true ∧ isSuccess 404 = false) ∧
    updateSecure (.success ⟨404, "404 Not Found"⟩ []) =
      .err ("Status " ++ "404 Not Found" ++ " received") :=
  ⟨by decide, c6_success_band.2.1 ⟨404, "404 Not Found"⟩ [] (by decide)⟩

/-- C8: md5File is total by construction; it returns the sentinel digest
exactly on missing or unreadable files and the content digest otherwise. -/
theorem c8_md5File_total :
    (∀ (L : Libs) (fs : FS) (fn : String), fs fn = none →
      md5File L fs fn = sentinelDigest) ∧
    (∀ (L : Libs) (fs : FS) (fn : String) (data : Bytes), fs fn = some data →
      md5File L fs fn = L.md5Hex data) := by
  constructor
  · intro L fs fn h
    simp [md5File, h]
  · intro L fs fn data h
    simp [md5File, h]

/-- Witness for C8 at concrete inputs. -/
theorem c8_witness :
    md5File wLibs fsOne "/missing" = sentinelDigest ∧
    md5File wLibs fsOne "/d/a.dat" = wLibs.md5Hex [1, 2] :=
  ⟨c8_md5File_total.1 wLibs fsOne "/missing" (by decide),
   c8_md5File_total.2 wLibs fsOne "/d/a.dat" [1, 2] (by decide)⟩

/-- C3: publish writes the payload to target + ".tmp" and renames it over
the target; success publishes exactly the payload, a failure of either
step yields an error with the previous target untouched, and every
filesystem state during the operation shows the target either with its
previous content or with the complete new payload, never anything else. -/
theorem c3_publish_atomic (fs : FS) (target : String) (data truncData : Bytes)
    (w rn : Bool) :
    ((w = true ∧ rn = true) →
      (publishFS fs target data truncData w rn).2.2 = Except.ok () ∧
      (publishFS fs target data truncData w rn).2.1 target = some data) ∧
    ((w = false ∨ rn = false) →
      (∃ m, (publishFS fs target data truncData w rn).2.2 = Except.error m) ∧
      (publishFS fs target data truncData w rn).2.1 target = fs target) ∧
    (∀ g ∈ (publishFS fs target data truncData w rn).1,
      g target = fs target ∨ g target = some data) := by
  have hne : ¬ (target = target ++ ".tmp") := target_ne_tmp target
  cases w <;> cases rn <;>
    simp [publishFS, writeFileFS, renameFS, hne]

/-- Witness for C3 at concrete inputs: a successful publish. -/
theorem c3_witness :
    (publishFS fsOne "/d/a.dat" [9] [] true true).2.2 = Except.ok () ∧
    (publishFS fsOne "/d/a.dat" [9] [] true true).2.1 "/d/a.dat" = some [9] :=
  (c3_publish_atomic fsOne "/d/a.dat" [9] [] true true).1 ⟨rfl, rfl⟩

/-- C10: randInt64 is total and within range for every strictly positive
bound, but the jitter step of main with a non-empty randomdelay flag that
parses to a zero duration (such as "0s") reaches the zero-divisor case of
the modulo, a runtime panic. -/
theorem c10_jitter_panic :
    (∀ (r : Nat) (max : Int), 0 < max →
      ∃ v, randInt64 r max = some v ∧ 0 ≤ v ∧ v < max) ∧
    (∀ r : Nat, mainJitter "0s" (Except.ok 0) r = .panicked) := by
  constructor
  · intro r max hmax
    have hz : ¬ (max = 0) := by omega
    refine ⟨(((r % 2 ^ 64) &&& 0x7fffffffffffffff : Nat) : Int).tmod max, ?_, ?_, ?_⟩
    · simp [randInt64, hz]
    · exact Int.tmod_nonneg _ (Int.natCast_nonneg _)
    · exact Int.tmod_lt_of_pos _ hmax
  · intro r
    simp [mainJitter, randInt64]

/-- Witness for C10 at concrete inputs. -/
theorem c10_witness :
    (∃ v, randInt64 3 10 = some v ∧ 0 ≤ v ∧ v < 10) ∧
    mainJitter "0s" (Except.ok 0) 3 = .panicked :=
  ⟨c10_jitter_panic.1 3 10 (by decide), c10_jitter_panic.2 3⟩

/-- C1: six consecutive gzip replies before any NoUpdate make the session
fail with the too-many-attempts protocol error and no publish; in any
session at most 5 rounds are ever decompressed, so the loop is bounded. -/
theorem c1_too_many_rounds :
    (∀ (L : Libs) (init : String) (r : Response)
       (b1 b2 b3 b4 b5 b6 u1 u2 u3 u4 u5 : Bytes)
       (rest : List TransportEvent),
      isSuccess r.statusCode = true →
      gzipMagic.isPrefixOf b1 = true → L.gunzip b1 = Except.ok u1 →
      gzipMagic.isPrefixOf b2 = true → L.gunzip b2 = Except.ok u2 →
      gzipMagic.isPrefixOf b3 = true → L.gunzip b3 = Except.ok u3 →
      gzipMagic.isPrefixOf b4 = true → L.gunzip b4 = Except.ok u4 →
      gzipMagic.isPrefixOf b5 = true → L.gunzip b5 = Except.ok u5 →
      gzipMagic.isPrefixOf b6 = true →
      (loopRun L ⟨0, [], init⟩
        (.success r b1 :: .success r b2 :: .success r b3 :: .success r b4 ::
         .success r b5 :: .success r b6 :: rest)).1
        = .err "Too many attempts at downloading file") ∧
    (∀ (L : Libs) (s : LoopState) (evs : List TransportEvent), s.attempts ≤ 5 →
      ∀ t ∈ (loopRun L s evs).2, t.attempts ≤ 5) ∧
    (∀ (L : Libs) (dir lk ip : String) (rf : Response) (fname : Bytes)
       (evs : List TransportEvent) (fs : FS) (w rn : Bool) (td : Bytes),
      isSuccess rf.statusCode = true →
      (loopRun L ⟨0, [], md5File L fs (filePathOf L dir fname)⟩ evs).1
        = .err "Too many attempts at downloading file" →
      getProduct L dir lk ip (.success rf fname) evs fs w rn td
        = (.err "Too many attempts at downloading file", fs)) := by
  refine ⟨?_, ?_, ?_⟩
  · intro L init r b1 b2 b3 b4 b5 b6 u1 u2 u3 u4 u5 rest hs m1 g1 m2 g2 m3 g3 m4 g4 m5 g5 m6
    rw [loopRun_next _ _ _ _ _ (loopStep_gzip _ _ _ _ _ hs m1 g1 (by simp))]
    rw [loopRun_next _ _ _ _ _ (loopStep_gzip _ _ _ _ _ hs m2 g2 (by simp))]
    rw [loopRun_next _ _ _ _ _ (loopStep_gzip _ _ _ _ _ hs m3 g3 (by simp))]
    rw [loopRun_next _ _ _ _ _ (loopStep_gzip _ _ _ _ _ hs m4 g4 (by simp))]
    rw [loopRun_next _ _ _ _ _ (loopStep_gzip _ _ _ _ _ hs m5 g5 (by simp))]
    rw [loopRun_halt _ _ _ _ _ (loopStep_gzip_bound _ _ _ _ hs m6 (by simp))]
  · exact fun L s evs hs => loopRun_trace_bound L evs s hs
  · intro L dir lk ip rf fname evs fs w rn td hs hl
    exact getProduct_err_of_loop L dir lk ip rf fname evs fs w rn td _ hs hl

/-- Witness for C1 at concrete inputs: six gzip replies. -/
theorem c1_witness :
    (loopRun wLibs ⟨0, [], sentinelDigest⟩
      (.success okResp [31, 139, 1] :: .success okResp [31, 139, 2] ::
       .success okResp [31, 139, 3] :: .success okResp [31, 139, 4] ::
       .success okResp [31, 139, 5] :: .success okResp [31, 139, 6] :: [])).1
      = .err "Too many attempts at downloading file" :=
  c1_too_many_rounds.1 wLibs sentinelDigest okResp
    [31, 139, 1] [31, 139, 2] [31, 139, 3] [31, 139, 4] [31, 139, 5] [31, 139, 6]
    [1] [2] [3] [4] [5] []
    (by decide) (by decide) rfl (by decide) rfl (by decide) rfl
    (by decide) rfl (by decide) rfl (by decide)

/-- C2: with replies gzip, gzip, NoUpdate (the second decompressing to a
non-empty payload), the loop publishes exactly the second decompressed
payload after exactly 2 rounds — each round's content replaces the prior
one — and the published target file holds exactly those bytes. -/
theorem c2_second_payload (L : Libs) (dir lk ip : String) (rf r1 r2 r3 : Response)
    (fname b1 b2 b3 u1 u2 : Bytes) (fs : FS) (td : Bytes)
    (hrf : isSuccess rf.statusCode = true)
    (h1 : isSuccess r1.statusCode = true)
    (h2 : isSuccess r2.statusCode = true)
    (h3 : isSuccess r3.statusCode = true)
    (m1 : gzipMagic.isPrefixOf b1 = true) (g1 : L.gunzip b1 = Except.ok u1)
    (m2 : gzipMagic.isPrefixOf b2 = true) (g2 : L.gunzip b2 = Except.ok u2)
    (hne : u2 ≠ [])
    (n3 : noUpdateMarker.isPrefixOf b3 = true) :
    (loopRun L ⟨0, [], md5File L fs (filePathOf L dir fname)⟩
      [.success r1 b1, .success r2 b2, .success r3 b3]).1 = .publish u2 2 ∧
    (getProduct L dir lk ip (.success rf fname)
      [.success r1 b1, .success r2 b2, .success r3 b3] fs true true td).1
      = .published (filePathOf L dir fname) u2 ∧
    (getProduct L dir lk ip (.success rf fname)
      [.success r1 b1, .success r2 b2, .success r3 b3] fs true true td).2
      (filePathOf L dir fname) = some u2 := by
  have hstep3 : loopStep L ⟨2, u2, L.md5Hex u2⟩ (.success r3 b3)
      = .halt (.publish u2 2) := by
    rw [loopStep_noupdate _ _ _ _ h3 n3]
    simp [List.length_pos, hne]
  have hloop : (loopRun L ⟨0, [], md5File L fs (filePathOf L dir fname)⟩
      [.success r1 b1, .success r2 b2, .success r3 b3]).1 = .publish u2 2 := by
    rw [loopRun_next _ _ _ _ _ (loopStep_gzip _ _ _ _ _ h1 m1 g1 (by simp))]
    rw [loopRun_next _ _ _ _ _ (loopStep_gzip _ _ _ _ _ h2 m2 g2 (by simp))]
    rw [loopRun_halt _ _ _ _ _ hstep3]
  refine ⟨hloop, ?_, ?_⟩ <;>
    rw [getProduct_of_loop L dir lk ip rf fname _ fs true true td hrf, hloop] <;>
    simp [publishFS, renameFS, writeFileFS]

/-- Witness for C2 at concrete inputs. -/
theorem c2_witness :
    (loopRun wLibs ⟨0, [], md5File wLibs fsEmpty (filePathOf wLibs "/d" (strBytes "a"))⟩
      [.success okResp [31, 139, 7], .success okResp [31, 139, 8, 9],
       .success okResp noUpdateMarker]).1 = .publish [8, 9] 2 ∧
    (getProduct wLibs "/d" "k" "1.2.3.4" (.success okResp (strBytes "a"))
      [.success okResp [31, 139, 7], .success okResp [31, 139, 8, 9],
       .success okResp noUpdateMarker] fsEmpty true true []).1
      = .published (filePathOf wLibs "/d" (strBytes "a")) [8, 9] ∧
    (getProduct wLibs "/d" "k" "1.2.3.4" (.success okResp (strBytes "a"))
      [.success okResp [31, 139, 7], .success okResp [31, 139, 8, 9],
       .success okResp noUpdateMarker] fsEmpty true true []).2
      (filePathOf wLibs "/d" (strBytes "a")) = some [8, 9] :=
  c2_second_payload wLibs "/d" "k" "1.2.3.4" okResp okResp okResp okResp
    (strBytes "a") [31, 139, 7] [31, 139, 8, 9] noUpdateMarker [7] [8, 9] fsEmpty []
    (by decide) (by decide) (by decide) (by decide)
    (by decide) rfl (by decide) rfl (by decide) (by decide)

/-- C5: a fully-read reply whose body starts with neither the NoUpdate
marker nor the gzip magic fails the loop with the "Not a gzip file"
protocol error regardless of the loop state it reaches, and a session
whose loop ends in that error returns it with the filesystem untouched:
no temporary or target file is written for the product. -/
theorem c5_malformed :
    (∀ (L : Libs) (s : LoopState) (r : Response) (body : Bytes),
      isSuccess r.statusCode = true →
      noUpdateMarker.isPrefixOf body = false →
      gzipMagic.isPrefixOf body = false →
      loopStep L s (.success r body) = .halt (.err "Not a gzip file")) ∧
    (∀ (L : Libs) (dir lk ip : String) (rf : Response) (fname : Bytes)
       (evs : List TransportEvent) (fs : FS) (w rn : Bool) (td : Bytes),
      isSuccess rf.statusCode = true →
      (loopRun L ⟨0, [], md5File L fs (filePathOf L dir fname)⟩ evs).1
        = .err "Not a gzip file" →
      getProduct L dir lk ip (.success rf fname) evs fs w rn td
        = (.err "Not a gzip file", fs)) := by
  constructor
  · exact fun L s r body hs hn hm => loopStep_malformed L s r body hs hn hm
  · intro L dir lk ip rf fname evs fs w rn td hs hl
    exact getProduct_err_of_loop L dir lk ip rf fname evs fs w rn td _ hs hl

/-- Witness for C5 at concrete inputs: the body "oops" is neither marker
nor gzip, and the whole session leaves the filesystem untouched. -/
theorem c5_witness :
    loopStep wLibs ⟨0, [], sentinelDigest⟩ (.success okResp (strBytes "oops"))
      = .halt (.err "Not a gzip file") ∧
    getProduct wLibs "/d" "k" "1.2.3.4" (.success okResp (strBytes "a"))
      [.success okResp (strBytes "oops")] fsEmpty true true []
      = (.err "Not a gzip file", fsEmpty) :=
  ⟨c5_malformed.1 wLibs ⟨0, [], sentinelDigest⟩ okResp (strBytes "oops")
      (by decide) (by decide) (by decide),
   c5_malformed.2 wLibs "/d" "k" "1.2.3.4" okResp (strBytes "a")
      [.success okResp (strBytes "oops")] fsEmpty true true []
      (by decide) (by decide)⟩

/-- C7: throughout a session's loop, the digest sent with each poll is
the digest of the most recently accepted payload: the local file's digest
at the start (the sentinel when the file is absent), and after each
decompressed round the digest of that round's decompressed bytes. -/
theorem c7_digest_inv :
    (∀ (L : Libs) (fs : FS) (p : String), fs p = none →
      md5File L fs p = sentinelDigest) ∧
    (∀ (L : Libs) (fs : FS) (p : String) (evs : List TransportEvent),
      ∀ t ∈ (loopRun L ⟨0, [], md5File L fs p⟩ evs).2,
        digestInv L (md5File L fs p) t) := by
  constructor
  · intro L fs p h
    simp [md5File, h]
  · intro L fs p evs t ht
    exact loopRun_trace_inv L (md5File L fs p) evs ⟨0, [], md5File L fs p⟩
      (Or.inl ⟨rfl, rfl, rfl⟩) t ht

/-- Witness for C7 at concrete inputs: after one decompressed round the
reached state carries the digest of its own payload. -/
theorem c7_witness :
    digestInv wLibs (md5File wLibs fsEmpty "/d/a")
      ⟨1, [7], wLibs.md5Hex [7]⟩ :=
  c7_digest_inv.2 wLibs fsEmpty "/d/a" [.success okResp [31, 139, 7]]
    ⟨1, [7], wLibs.md5Hex [7]⟩ (by decide)

/-- C9: the publish-or-noop choice is made on the byte length of the
retrieved payload, not on whether a round ran: a gzip round whose payload
decompresses to zero bytes followed by NoUpdate ends on the no-op path
with no file written, although the round was accepted (the reached states
show the round counter at 1 and the digest updated to the empty payload's
digest). -/
theorem c9_empty_payload (L : Libs) (dir lk ip : String) (rf r1 r2 : Response)
    (fname b1 b2 : Bytes) (fs : FS) (w rn : Bool) (td : Bytes)
    (hrf : isSuccess rf.statusCode = true)
    (h1 : isSuccess r1.statusCode = true)
    (m1 : gzipMagic.isPrefixOf b1 = true)
    (g1 : L.gunzip b1 = Except.ok [])
    (h2 : isSuccess r2.statusCode = true)
    (n2 : noUpdateMarker.isPrefixOf b2 = true) :
    getProduct L dir lk ip (.success rf fname) [.success r1 b1, .success r2 b2]
      fs w rn td = (.noopOk, fs) ∧
    (loopRun L ⟨0, [], md5File L fs (filePathOf L dir fname)⟩
      [.success r1 b1, .success r2 b2]).2
      = [⟨0, [], md5File L fs (filePathOf L dir fname)⟩, ⟨1, [], L.md5Hex []⟩] := by
  have hstep2 : loopStep L ⟨1, [], L.md5Hex []⟩ (.success r2 b2)
      = .halt (.noop 1) := by
    rw [loopStep_noupdate _ _ _ _ h2 n2]
    simp
  have hrun : loopRun L ⟨0, [], md5File L fs (filePathOf L dir fname)⟩
      [.success r1 b1, .success r2 b2]
      = (.noop 1, [⟨0, [], md5File L fs (filePathOf L dir fname)⟩,
                   ⟨1, [], L.md5Hex []⟩]) := by
    rw [loopRun_next _ _ _ _ _ (loopStep_gzip _ _ _ _ _ h1 m1 g1 (by simp))]
    rw [loopRun_halt _ _ _ _ _ hstep2]
  constructor
  · exact getProduct_noop_of_loop L dir lk ip rf fname _ fs w rn td 1 hrf
      (by rw [hrun])
  · rw [hrun]

/-- Witness for C9 at concrete inputs. -/
theorem c9_witness :
    getProduct wLibs "/d" "k" "1.2.3.4" (.success okResp (strBytes "a"))
      [.success okResp [31, 139], .success okResp noUpdateMarker]
      fsEmpty true true [] = (.noopOk, fsEmpty) ∧
    (loopRun wLibs ⟨0, [], md5File wLibs fsEmpty (filePathOf wLibs "/d" (strBytes "a"))⟩
      [.success okResp [31, 139], .success okResp noUpdateMarker]).2
      = [⟨0, [], md5File wLibs fsEmpty (filePathOf wLibs "/d" (strBytes "a"))⟩,
         ⟨1, [], wLibs.md5Hex []⟩] :=
  c9_empty_payload wLibs "/d" "k" "1.2.3.4" okResp okResp okResp
    (strBytes "a") [31, 139] noUpdateMarker fsEmpty true true []
    (by decide) (by decide) (by decide) rfl (by decide) (by decide)

/-- C4 counterexample: a transport failure to send the request (http.Get
error) makes download call log.Fatal, terminating the whole process, so
with products 506 and 533 and a send failure on 506's filename request,
533 is never attempted — the claim that such a failure aborts only the
current product's session is false on the code. -/
theorem c4_counterexample :
    c4run "506" = SessionResult.fatal "connection refused" ∧
    (runProducts c4run ["506", "533"]).map Prod.fst = ["506"] := by
  constructor
  · decide
  · decide

/-- C4 amended: a TransportError while reading a response body aborts
only the current product's session (an error return, not a process exit),
and as long as no session terminates the process, every requested product
is attempted no matter how earlier sessions fail; but a session that hits
a send failure terminates the process at once, so later products are not
attempted. -/
theorem c4_amended :
    (∀ (L : Libs) (s : LoopState) (r : Response) (m : String),
      isSuccess r.statusCode = true →
      loopStep L s (.readFailure r m) = .halt (.err m)) ∧
    (∀ (run : String → SessionResult) (ps : List String),
      (∀ p ∈ ps, ∀ m, run p ≠ .fatal m) →
      (runProducts run ps).map Prod.fst = ps) ∧
    (∀ (run : String → SessionResult) (p : String) (ps : List String) (m : String),
      run p = .fatal m → runProducts run (p :: ps) = [(p, .fatal m)]) := by
  refine ⟨?_, ?_, ?_⟩
  · exact fun L s r m hs => loopStep_readfail L s r m hs
  · intro run ps
    induction ps with
    | nil => intro _; rfl
    | cons p ps ih =>
      intro h
      have hp := h p (by simp)
      cases hr : run p with
      | fatal m => exact absurd hr (hp m)
      | err m =>
        simp [runProducts, hr]
        exact ih (fun q hq m => h q (by simp [hq]) m)
      | noopOk =>
        simp [runProducts, hr]
        exact ih (fun q hq m => h q (by simp [hq]) m)
      | published t d =>
        simp [runProducts, hr]
        exact ih (fun q hq m => h q (by simp [hq]) m)
      | noEvent =>
        simp [runProducts, hr]
        exact ih (fun q hq m => h q (by simp [hq]) m)
  · intro run p ps m h
    simp [runProducts, h]

/-- Witness for C4 amended at concrete inputs: a read failure is a plain
error, and with sessions that never exit the process both products are
attempted. -/
theorem c4_witness :
    loopStep wLibs ⟨0, [], sentinelDigest⟩ (.readFailure okResp "read err")
      = .halt (.err "read err") ∧
    (runProducts c4okRun ["506", "533"]).map Prod.fst = ["506", "533"] :=
  ⟨c4_amended.1 wLibs ⟨0, [], sentinelDigest⟩ okResp "read err" (by decide),
   c4_amended.2.1 c4okRun ["506", "533"]
     (by
       intro p hp m hcon
       rw [show c4okRun p = SessionResult.noEvent from rfl] at hcon
       simp at hcon)⟩
